import Mathlib

/-!
Verification development for the synthator batching-and-reshaping pipeline.

The Lean definitions below are shallow embeddings of the Python source:

* `src/synthator/transform.py` — chromosome naming, string parsing
  (`parse_variant_id`, `scored_interval_to_interval_struct`, `parse_scorer`)
  and the output-normalization pipeline `transform_output`;
* `src/synthator/batch.py` — `ContextualizedVariantBatch`,
  `VariantBatchGenerator` (`_batch_id`, `_aggregate_variants_by_batch`,
  `batch_variant_index`), `transform_batch`, `write_batch`, `process_batch`;
* `src/synthator/context.py` — `ContextualizedVariant.from_variant`.

Modelling conventions:

* Python strings are Lean `String`s; string algorithms (splitting, regex-style
  extraction, first-occurrence replacement) are implemented structurally over
  `List Char` so that concrete instances evaluate inside the kernel.
* Nullable columns are `Option _`.  Float score payloads are never inspected or
  combined by the code (they are only carried through, grouped and collected),
  so they are modelled by an opaque carrier type `Score := Int`; dtype-level
  facts about floats are settled by a separate schema-level embedding.
* polars expression semantics used by the code: `pl.when(c).then(e)` without
  `otherwise` is `none` when the condition fails; `agg(pl.col c)` collects the
  whole column of a group, nulls included, in row order; `list.get i` is `none`
  out of bounds; a failed string-to-integer cast is `none`; `group_by` does not
  guarantee any group order, which is modelled by treating every permutation of
  the deterministically built (first-key-occurrence ordered) group list as an
  admissible output; integer floor division by zero yields null in polars, and
  floor division matches `Int.fdiv`.
-/

/-! ## Character-list string utilities (Python / polars string semantics) -/

/-- Split a character list at every occurrence of `sep`, as Python
`str.split(sep)` and polars `str.split` do (`"a:b" → ["a","b"]`,
`"" → [""]`). -/
def splitOnChar (sep : Char) : List Char → List (List Char)
  | [] => [[]]
  | c :: cs =>
    let rest := splitOnChar sep cs
    if c = sep then [] :: rest
    else
      match rest with
      | [] => [[c]]
      | r :: rs => (c :: r) :: rs

/-- Replace the first occurrence of the (nonempty) literal pattern `pat` by
`rep`, as polars `str.replace` does for a literal regex pattern. -/
def replaceFirst (pat rep : List Char) : List Char → List Char
  | [] => []
  | c :: cs =>
    if pat ≠ [] ∧ pat.isPrefixOf (c :: cs) then rep ++ (c :: cs).drop pat.length
    else c :: replaceFirst pat rep cs

/-- Parse a run of decimal digits as a natural number. -/
def digitsToNat (l : List Char) : Nat :=
  l.foldl (fun a c => a * 10 + (c.toNat - 48)) 0

/-- Whether each character of the list is a decimal digit. -/
def allDigits (l : List Char) : Bool := l.all (·.isDigit)

/-- Cast of a string column to an integer dtype: digits parse, anything else
is null. -/
def castToInt (l : List Char) : Option Int :=
  if l ≠ [] ∧ allDigits l then some (digitsToNat l) else none

/-! ## Chromosome naming — `src/synthator/transform.py` -/

/-- Embedding of `ensembl_to_ucsc` (transform.py): `"MT" → "chrM"`, otherwise
prepend `"chr"`. -/
def ensembl_to_ucsc (chromosome : String) : String :=
  if chromosome = "MT" then "chrM" else "chr" ++ chromosome

/-- Embedding of `ucsc_to_ensembl` (transform.py): `"chrM" → "MT"`, otherwise
Python `removeprefix("chr")` — drop a leading `"chr"` if present, else return
the input unchanged. -/
def ucsc_to_ensembl (chromosome : String) : String :=
  if chromosome = "chrM" then "MT"
  else if ['c', 'h', 'r'].isPrefixOf chromosome.data then
    String.mk (chromosome.data.drop 3)
  else chromosome

/-- The bare (Ensembl-style) chromosome names of the specification's domain. -/
def bareChromosomes : List String :=
  ["1", "2", "3", "4", "5", "6", "7", "8", "9", "10", "11", "12", "13", "14",
   "15", "16", "17", "18", "19", "20", "21", "22", "X", "Y", "MT"]

/-- The prefixed (UCSC-style) equivalents of `bareChromosomes`. -/
def prefixedChromosomes : List String :=
  ["chr1", "chr2", "chr3", "chr4", "chr5", "chr6", "chr7", "chr8", "chr9",
   "chr10", "chr11", "chr12", "chr13", "chr14", "chr15", "chr16", "chr17",
   "chr18", "chr19", "chr20", "chr21", "chr22", "chrX", "chrY", "chrM"]

/-! ## Scorer-string parsing — `parse_scorer` (transform.py) -/

/-- Word character of the regex class `\w`. -/
def isWordChar (c : Char) : Bool := c.isAlphanum || c = '_'

/-- Search semantics of polars `str.extract(r"LIT(\w+)", 1)`-shaped patterns:
find the first position where the literal `pat` is followed by a nonempty run
of characters satisfying `p`, and return that run; `none` when no position
matches (polars returns null on no match, it does not error). -/
def extractRunAfter (pat : List Char) (p : Char → Bool) : List Char → Option (List Char)
  | [] => none
  | c :: cs =>
    if pat.isPrefixOf (c :: cs) then
      let run := ((c :: cs).drop pat.length).takeWhile p
      if run = [] then extractRunAfter pat p cs else some run
    else extractRunAfter pat p cs

/-- Extraction for the anchored pattern `r"^(\w+)\("`: the leading maximal run
of word characters, provided it is nonempty and immediately followed by an
opening parenthesis. -/
def extractScorerName (l : List Char) : Option (List Char) :=
  let run := l.takeWhile isWordChar
  if run = [] then none
  else if (l.drop run.length).head? = some '(' then some run else none

/-- Whether `pat` occurs as a contiguous subsequence. -/
def containsSeq (pat : List Char) : List Char → Bool
  | [] => decide (pat = [])
  | c :: cs => pat.isPrefixOf (c :: cs) || containsSeq pat cs

/-- The struct produced by `parse_scorer`:
`{scorerName, requestedOutput, width, aggregationType}`, each field nullable
independently of the others. -/
structure ScorerStruct where
  scorerName : Option String
  requestedOutput : Option String
  width : Option Int
  aggregationType : Option String
deriving DecidableEq

/-- Embedding of `parse_scorer` (transform.py): field-by-field regex
extraction with the patterns `^(\w+)\(`, `requested_output=(\w+)`,
`width=(\d+)` (cast to a 32-bit integer; the claims only exercise in-range
values) and `aggregation_type=(\w+)`.  Each extraction yields null on no
match. -/
def parse_scorer (scorer : String) : ScorerStruct where
  scorerName := (extractScorerName scorer.data).map String.mk
  requestedOutput :=
    (extractRunAfter "requested_output=".data isWordChar scorer.data).map String.mk
  width := (extractRunAfter "width=".data Char.isDigit scorer.data).map
    (fun d => (digitsToNat d : Int))
  aggregationType :=
    (extractRunAfter "aggregation_type=".data isWordChar scorer.data).map String.mk

/-! ## Variant-id and interval parsing (transform.py) -/

/-- The chromosome normalization applied inside `parse_variant_id` and
`scored_interval_to_interval_struct`: polars
`.str.replace("chr", "")` (first occurrence) followed by
`.str.replace("^M$", "MT")` (whole-string anchor). -/
def stripChrThenMt (l : List Char) : List Char :=
  let l1 := replaceFirst "chr".data [] l
  if l1 = ['M'] then "MT".data else l1

/-- Embedding of `parse_variant_id` (transform.py): split
`"chr{C}:{POS}:{REF}>{ALT}"` on `":"`, normalize the chromosome, split the
third part on `">"`, and rebuild `"{C}_{POS}_{REF}_{ALT}"` with
`pl.concat_str(..., separator="_")`, which is null as soon as any component
is null. -/
def parse_variant_id (variant_id : String) : Option String :=
  let parts := splitOnChar ':' variant_id.data
  let chr := (parts[0]?).map stripChrThenMt
  let pos := parts[1]?
  let ref := (parts[2]?).bind fun p => (splitOnChar '>' p)[0]?
  let alt := (parts[2]?).bind fun p => (splitOnChar '>' p)[1]?
  match chr, pos, ref, alt with
  | some c, some p, some r, some a =>
      some (String.mk (c ++ '_' :: p ++ '_' :: r ++ '_' :: a))
  | _, _, _, _ => none

/-- The interval struct built by `scored_interval_to_interval_struct`:
`{chromosome, start, end}`.  The chromosome is stored as a (categorical)
string; `start`/`end` are cast to 64-bit integers, null when the cast
fails. -/
structure IntervalStruct where
  chromosome : Option String
  start : Option Int
  «end» : Option Int
deriving DecidableEq

/-- Embedding of `scored_interval_to_interval_struct` (transform.py): split
`"chr{C}:{START}-{END}"` on `":"`, normalize the chromosome of part 0, split
part 1 on `"-"` and cast both pieces to `Int64`. -/
def scored_interval_to_interval_struct (scored_interval : String) : IntervalStruct :=
  let parts := splitOnChar ':' scored_interval.data
  { chromosome := (parts[0]?).map fun c => String.mk (stripChrThenMt c)
    start := (parts[1]?).bind fun p => ((splitOnChar '-' p)[0]?).bind castToInt
    «end» := (parts[1]?).bind fun p => ((splitOnChar '-' p)[1]?).bind castToInt }

/-! ## The tidy data model — `TidyRow`

One row per score, as produced by the external flattening utility
(`tidy_scores`) and consumed by `transform_output`.  Nullable columns are
`Option`s.  The float-valued score columns are only ever carried through,
grouped and collected by the code — no arithmetic is performed on them — so
their payload is modelled by the opaque carrier `Score`; dtype-level facts
are handled separately by the schema embedding below. -/

/-- Opaque carrier for the float score payloads. -/
abbrev Score := Int

/-- A tidy output row (input of `transform_output`).  Field `assay_title`
stands for the column literally named `"Assay title"`; `junction_Start` and
`junction_End` match the source's capitalised column names. -/
structure TidyRow where
  variant_id : String
  scored_interval : String
  variant_scorer : String
  raw_score : Option Score
  quantile_score : Option Score
  data_source : Option String
  gene_id : Option String
  gene_name : Option String
  gene_type : Option String
  gene_strand : Option String
  junction_Start : Option Int
  junction_End : Option Int
  track_name : Option String
  track_strand : Option String
  assay_title : Option String
  biosample_name : Option String
  biosample_type : Option String
  biosample_life_stage : Option String
  endedness : Option String
  genetically_modified : Option Bool
  transcription_factor : Option String
  histone_mark : Option String
  gtex_tissue : Option String
  ontology_curie : Option String
deriving DecidableEq

/-- Feature struct built by `transform_variant_based_features`. -/
structure VariantFeatures where
  quantileScore : Option Score
  rawScore : Option Score
  variantScorer : ScorerStruct
deriving DecidableEq

/-- Feature struct built by `transform_gene_based_features`. -/
structure GeneFeatures where
  geneId : Option String
  geneSymbol : Option String
  geneType : Option String
  geneStrand : Option String
  quantileScore : Option Score
  rawScore : Option Score
  variantScorer : ScorerStruct
deriving DecidableEq

/-- Feature struct built by `transform_junction_based_features`. -/
structure JunctionFeatures where
  geneId : Option String
  geneSymbol : Option String
  geneType : Option String
  geneStrand : Option String
  junctionStart : Option Int
  junctionEnd : Option Int
  quantileScore : Option Score
  rawScore : Option Score
  variantScorer : ScorerStruct
deriving DecidableEq

/-- Biosample struct built by `capture_biosample` (transform.py): six fields,
including `gtexTissue` and `geneticallyModified`. -/
structure BiosampleMetadata where
  ontologyCurie : Option String
  biosampleName : Option String
  biosampleType : Option String
  biosampleLifeStage : Option String
  gtexTissue : Option String
  geneticallyModified : Option Bool
deriving DecidableEq

/-- Embedding of `transform_variant_based_features` (transform.py). -/
def transform_variant_based_features (quantile_score raw_score : Option Score)
    (variant_scorer : ScorerStruct) : VariantFeatures where
  quantileScore := quantile_score
  rawScore := raw_score
  variantScorer := variant_scorer

/-- Embedding of `transform_gene_based_features` (transform.py). -/
def transform_gene_based_features
    (gene_id gene_name gene_type gene_strand : Option String)
    (quantile_score raw_score : Option Score)
    (variant_scorer : ScorerStruct) : GeneFeatures where
  geneId := gene_id
  geneSymbol := gene_name
  geneType := gene_type
  geneStrand := gene_strand
  quantileScore := quantile_score
  rawScore := raw_score
  variantScorer := variant_scorer

/-- Embedding of `transform_junction_based_features` (transform.py). -/
def transform_junction_based_features
    (gene_id gene_name gene_type gene_strand : Option String)
    (junction_start junction_end : Option Int)
    (quantile_score raw_score : Option Score)
    (variant_scorer : ScorerStruct) : JunctionFeatures where
  geneId := gene_id
  geneSymbol := gene_name
  geneType := gene_type
  geneStrand := gene_strand
  junctionStart := junction_start
  junctionEnd := junction_end
  quantileScore := quantile_score
  rawScore := raw_score
  variantScorer := variant_scorer

/-- Embedding of `capture_biosample` (transform.py). -/
def capture_biosample
    (ontology_curie biosample_name biosample_type biosample_life_stage
      gtex_tissue : Option String)
    (genetically_modified : Option Bool) : BiosampleMetadata where
  ontologyCurie := ontology_curie
  biosampleName := biosample_name
  biosampleType := biosample_type
  biosampleLifeStage := biosample_life_stage
  gtexTissue := gtex_tissue
  geneticallyModified := genetically_modified

/-! ## The `transform_output` pipeline (transform.py, lines 213-336) -/

/-- Row produced by the first `.select(...)` of `transform_output`:
parsed id and interval, the three mutually exclusive feature columns
(`pl.when(...).then(...)` with no `otherwise` is null when the condition
fails), and the carried-through metadata columns. -/
structure ParsedRow where
  variantId : Option String
  interval : IntervalStruct
  geneBasedFeatures : Option GeneFeatures
  spliceJunctionFeatures : Option JunctionFeatures
  variantBasedFeatures : Option VariantFeatures
  track_name : Option String
  track_strand : Option String
  assay_title : Option String
  transcription_factor : Option String
  histone_mark : Option String
  endedness : Option String
  ontology_curie : Option String
  biosample_name : Option String
  biosample_type : Option String
  biosample_life_stage : Option String
  gtex_tissue : Option String
  genetically_modified : Option Bool
  dataSource : Option String
deriving DecidableEq

/-- Per-row semantics of the first `.select(...)` of `transform_output`
(transform.py lines 221-273), including the three-way
`pl.when(...).then(...)` classification on the nullability of `gene_id` and
`junction_Start`. -/
def transform_select_row (r : TidyRow) : ParsedRow :=
  let vsc := parse_scorer r.variant_scorer
  { variantId := parse_variant_id r.variant_id
    interval := scored_interval_to_interval_struct r.scored_interval
    geneBasedFeatures :=
      if r.gene_id.isSome ∧ r.junction_Start = none then
        some (transform_gene_based_features r.gene_id r.gene_name r.gene_type
          r.gene_strand r.quantile_score r.raw_score vsc)
      else none
    spliceJunctionFeatures :=
      if r.gene_id.isSome ∧ r.junction_Start.isSome then
        some (transform_junction_based_features r.gene_id r.gene_name
          r.gene_type r.gene_strand r.junction_Start r.junction_End
          r.quantile_score r.raw_score vsc)
      else none
    variantBasedFeatures :=
      if r.gene_id = none then
        some (transform_variant_based_features r.quantile_score r.raw_score vsc)
      else none
    track_name := r.track_name
    track_strand := r.track_strand
    assay_title := r.assay_title
    transcription_factor := r.transcription_factor
    histone_mark := r.histone_mark
    endedness := r.endedness
    ontology_curie := r.ontology_curie
    biosample_name := r.biosample_name
    biosample_type := r.biosample_type
    biosample_life_stage := r.biosample_life_stage
    gtex_tissue := r.gtex_tissue
    genetically_modified := r.genetically_modified
    dataSource := r.data_source }

/-- The fourteen-column key of the first `.group_by(...)` of
`transform_output` (transform.py lines 274-289). -/
structure GroupKey1 where
  variantId : Option String
  interval : IntervalStruct
  track_name : Option String
  track_strand : Option String
  assay_title : Option String
  transcription_factor : Option String
  histone_mark : Option String
  endedness : Option String
  ontology_curie : Option String
  biosample_name : Option String
  biosample_type : Option String
  biosample_life_stage : Option String
  gtex_tissue : Option String
  genetically_modified : Option Bool
deriving DecidableEq

/-- Key extraction for the first `group_by`. -/
def groupKey1 (p : ParsedRow) : GroupKey1 where
  variantId := p.variantId
  interval := p.interval
  track_name := p.track_name
  track_strand := p.track_strand
  assay_title := p.assay_title
  transcription_factor := p.transcription_factor
  histone_mark := p.histone_mark
  endedness := p.endedness
  ontology_curie := p.ontology_curie
  biosample_name := p.biosample_name
  biosample_type := p.biosample_type
  biosample_life_stage := p.biosample_life_stage
  gtex_tissue := p.gtex_tissue
  genetically_modified := p.genetically_modified

/-- Distinct keys of a list in order of first occurrence. -/
def firstOccKeys {κ : Type} [DecidableEq κ] : List κ → List κ
  | [] => []
  | k :: ks => k :: (firstOccKeys ks).filter fun j => decide (j ≠ k)

/-- Deterministic grouping: one `(key, group)` pair per distinct key, keys in
first-occurrence order, each group in row order.  polars `group_by` does not
guarantee any particular group order; theorems about group *order* therefore
quantify over all permutations of this list (see `BatchVariantIndexOutput`),
while membership and per-group contents are order-insensitive. -/
def groupByKey {α κ : Type} [DecidableEq κ] (key : α → κ) (l : List α) :
    List (κ × List α) :=
  (firstOccKeys (l.map key)).map fun k => (k, l.filter fun x => decide (key x = k))

/-- Row after the first `.agg(...)` (transform.py lines 290-294): the group
key plus the three per-group value lists, nulls included. -/
structure GroupedRow1 where
  key : GroupKey1
  variantBasedFeatures : List (Option VariantFeatures)
  geneBasedFeatures : List (Option GeneFeatures)
  spliceJunctionFeatures : List (Option JunctionFeatures)
deriving DecidableEq

/-- Row after the second `.select(...)` (transform.py lines 295-309), which
folds six of the key columns into the `biosampleMetadata` struct via
`capture_biosample`. -/
structure GroupedRow2 where
  variantId : Option String
  interval : IntervalStruct
  biosampleMetadata : BiosampleMetadata
  variantBasedFeatures : List (Option VariantFeatures)
  geneBasedFeatures : List (Option GeneFeatures)
  spliceJunctionFeatures : List (Option JunctionFeatures)
deriving DecidableEq

/-- Per-row semantics of the second `.select(...)` of `transform_output`. -/
def transform_select_biosample (g : GroupedRow1) : GroupedRow2 where
  variantId := g.key.variantId
  interval := g.key.interval
  biosampleMetadata := capture_biosample g.key.ontology_curie
    g.key.biosample_name g.key.biosample_type g.key.biosample_life_stage
    g.key.gtex_tissue g.key.genetically_modified
  variantBasedFeatures := g.variantBasedFeatures
  geneBasedFeatures := g.geneBasedFeatures
  spliceJunctionFeatures := g.spliceJunctionFeatures

/-- The key of the second `.group_by(...)` of `transform_output`
(transform.py line 310): `(variantId, interval, biosampleMetadata)`. -/
structure GroupKey2 where
  variantId : Option String
  interval : IntervalStruct
  biosampleMetadata : BiosampleMetadata
deriving DecidableEq

/-- Key extraction for the second `group_by`. -/
def groupKey2 (g : GroupedRow2) : GroupKey2 where
  variantId := g.variantId
  interval := g.interval
  biosampleMetadata := g.biosampleMetadata

/-- Final output row of `transform_output`. -/
structure NormalizedRow where
  variantId : Option String
  interval : IntervalStruct
  biosampleMetadata : BiosampleMetadata
  variantBasedFeatures : List VariantFeatures
  geneBasedFeatures : List GeneFeatures
  spliceJunctionFeatures : List JunctionFeatures
deriving DecidableEq

/-- Semantics of
`.list.eval(pl.element().explode().drop_nulls()).list.filter(pl.element().is_not_null())`
applied to an aggregated list of per-group lists: flatten one level and drop
the nulls (transform.py lines 316-332). -/
def collectFeatures {F : Type} (ll : List (List (Option F))) : List F :=
  ll.flatten.filterMap id

/-- First `.group_by(...).agg(...)` of `transform_output` (transform.py
lines 274-294): group the parsed rows by the fourteen-column key and collect
each group's three feature columns into lists. -/
def transform_grouped1 (parsed : List ParsedRow) : List GroupedRow1 :=
  (groupByKey groupKey1 parsed).map fun kg =>
    GroupedRow1.mk kg.1 (kg.2.map (·.variantBasedFeatures))
      (kg.2.map (·.geneBasedFeatures)) (kg.2.map (·.spliceJunctionFeatures))

/-- Second `.group_by(...).agg(...)` plus the final `.select(...)` of
`transform_output` (transform.py lines 310-332): group by
`(variantId, interval, biosampleMetadata)`, aggregate the three list columns
into lists of lists, and flatten each dropping nulls. -/
def transform_grouped2 (selected2 : List GroupedRow2) : List NormalizedRow :=
  (groupByKey groupKey2 selected2).map fun kg =>
    NormalizedRow.mk kg.1.variantId kg.1.interval kg.1.biosampleMetadata
      (collectFeatures (kg.2.map (·.variantBasedFeatures)))
      (collectFeatures (kg.2.map (·.geneBasedFeatures)))
      (collectFeatures (kg.2.map (·.spliceJunctionFeatures)))

/-- Embedding of `transform_output` (transform.py lines 213-336): parse and
classify each row, group by the fourteen-column key and aggregate the three
feature columns, fold the biosample struct, group by
`(variantId, interval, biosampleMetadata)` aggregating lists of lists,
flatten those dropping nulls, and `.unique()` the result. -/
def transform_output (tidy_data : List TidyRow) : List NormalizedRow :=
  (transform_grouped2
    ((transform_grouped1 (tidy_data.map transform_select_row)).map
      transform_select_biosample)).dedup

/-- The `(variantId, interval, biosampleMetadata)` key of a final output
row. -/
def normKey (o : NormalizedRow) : GroupKey2 where
  variantId := o.variantId
  interval := o.interval
  biosampleMetadata := o.biosampleMetadata

/-- The `(variantId, interval, biosampleMetadata)` key a parsed row ends up
grouped under: its parsed id and interval together with its six-field
`capture_biosample` struct. -/
def coarseKey (p : ParsedRow) : GroupKey2 where
  variantId := p.variantId
  interval := p.interval
  biosampleMetadata := capture_biosample p.ontology_curie p.biosample_name
    p.biosample_type p.biosample_life_stage p.gtex_tissue p.genetically_modified

/-- Projection of the fourteen-column key onto the
`(variantId, interval, biosampleMetadata)` key. -/
def coarseOfKey1 (k : GroupKey1) : GroupKey2 where
  variantId := k.variantId
  interval := k.interval
  biosampleMetadata := capture_biosample k.ontology_curie k.biosample_name
    k.biosample_type k.biosample_life_stage k.gtex_tissue k.genetically_modified

/-! ## Concrete tidy rows used by the claim theorems below -/

/-- A variant-level tidy row (`gene_id` null). -/
def tidyRowA : TidyRow where
  variant_id := "chr1:100:A>T"
  scored_interval := "chr1:50-150"
  variant_scorer := "SpliceJunctionScorer()"
  raw_score := some 1
  quantile_score := some 2
  data_source := some "ENCODE"
  gene_id := none
  gene_name := none
  gene_type := none
  gene_strand := none
  junction_Start := none
  junction_End := none
  track_name := some "t1"
  track_strand := some "+"
  assay_title := some "ChIP"
  biosample_name := some "K562"
  biosample_type := some "cell line"
  biosample_life_stage := some "adult"
  endedness := none
  genetically_modified := none
  transcription_factor := none
  histone_mark := none
  gtex_tissue := some "Lung"
  ontology_curie := some "CL:1"

/-- Same as `tidyRowA` except for the `gtex_tissue` column. -/
def tidyRowB : TidyRow := { tidyRowA with gtex_tissue := some "Liver" }

/-- A gene-level tidy row (`gene_id` set, `junction_Start` null). -/
def tidyRowGene : TidyRow :=
  { tidyRowA with gene_id := some "ENSG1", gene_name := some "TP53" }

/-- A junction-level tidy row (`gene_id` and `junction_Start` both set). -/
def tidyRowJunc : TidyRow :=
  { tidyRowGene with junction_Start := some 10, junction_End := some 20 }

/-- The single output row of `transform_output [tidyRowA]`. -/
def outRowA : NormalizedRow :=
  ⟨some "1_100_A_T", ⟨some "1", some 50, some 150⟩,
   ⟨some "CL:1", some "K562", some "cell line", some "adult", some "Lung", none⟩,
   [⟨some 2, some 1, ⟨some "SpliceJunctionScorer", none, none, none⟩⟩], [], []⟩

/-! ## C2 — grouping key and collection of feature lists -/

/-- Modelled from the spec's words, for comparison with the code: the
claimed four-field biosample struct
`{id: ontology_curie, name: biosample_name, type: biosample_type,
lifeStage: biosample_life_stage}`. -/
structure SpecBiosample where
  id : Option String
  name : Option String
  type : Option String
  lifeStage : Option String
deriving DecidableEq

/-- Modelled from the spec's words, for comparison with the code: the claimed
grouping key `(variantId, interval struct, four-field biosample struct)`. -/
structure SpecKey where
  variantId : Option String
  interval : IntervalStruct
  biosample : SpecBiosample
deriving DecidableEq

/-- Modelled from the spec's words: the claimed grouping key of a parsed
row. -/
def specGroupKey (p : ParsedRow) : SpecKey where
  variantId := p.variantId
  interval := p.interval
  biosample :=
    { id := p.ontology_curie, name := p.biosample_name,
      type := p.biosample_type, lifeStage := p.biosample_life_stage }

/-! ## Batching — `src/synthator/context.py` and `src/synthator/batch.py`

The external alphagenome library supplies `Variant.reference_interval` and
`Interval.resize`; that computation is out of scope (an external collaborator)
and is passed into the embedding as an explicit function argument `refResize`,
so every theorem below holds for an arbitrary such function.  A concrete
stand-in `centerResize` is used to evaluate witnesses. -/

/-- Genomic interval record (shape of the external alphagenome `Interval`). -/
structure GenomicInterval where
  chromosome : String
  start : Int
  «end» : Int
deriving DecidableEq

/-- Variant record as constructed by `ContextualizedVariant.from_variant`:
the alphagenome `Variant` with the derived name and the info map, which the
source populates with `{"batchId": batch_id}` only when the Python value
`batch_id` is truthy. -/
structure Variant where
  chromosome : String
  position : Int
  reference_bases : String
  alternate_bases : String
  name : String
  info : List (String × Int)
deriving DecidableEq

/-- Python truthiness of the optional integer batch id (`if batch_id:`);
`None` and `0` are falsy. -/
def pyTruthy : Option Int → Bool
  | none => false
  | some n => decide (n ≠ 0)

/-- Embedding of the `ContextualizedVariant` dataclass (context.py). -/
structure ContextualizedVariant where
  interval : GenomicInterval
  variant : Variant
deriving DecidableEq

/-- Embedding of `ContextualizedVariant.from_variant` (context.py): build the
`Variant` with derived name and conditional info map, then produce the
interval via the external `variant.reference_interval.resize(window_size)`
computation `refResize`.  The repository code applies no validation of
`window_size`. -/
def ContextualizedVariant.from_variant (refResize : Variant → Int → GenomicInterval)
    (chromosome : String) (position : Int)
    (reference_bases alternate_bases : String) (window_size : Int)
    (batch_id : Option Int) : ContextualizedVariant :=
  let variant : Variant :=
    { chromosome := chromosome, position := position,
      reference_bases := reference_bases, alternate_bases := alternate_bases,
      name := chromosome ++ "_" ++ toString position ++ "_" ++
        reference_bases ++ "_" ++ alternate_bases,
      info := if pyTruthy batch_id then [("batchId", batch_id.getD 0)] else [] }
  { interval := refResize variant window_size, variant := variant }

/-- Concrete stand-in for the external interval-resize computation, used only
to instantiate witnesses; the batching bookkeeping does not depend on it. -/
def centerResize (v : Variant) (width : Int) : GenomicInterval :=
  { chromosome := v.chromosome, start := v.position - Int.fdiv width 2,
    «end» := v.position - Int.fdiv width 2 + width }

/-- Embedding of the `ContextualizedVariantBatch` dataclass (batch.py).  The
Python `batch_id` is annotated `str` but at runtime receives the integer (or
null) polars batch id from `iter_rows`, modelled as `Option Int`;
`n_variants` defaults to `0` exactly as in the source. -/
structure ContextualizedVariantBatch where
  interval_variants : List ContextualizedVariant
  batch_id : Option Int
  n_variants : Int := 0
deriving DecidableEq

/-- Embedding of `ContextualizedVariantBatch.append_variant` (batch.py): the
only mutator, appending the variant and incrementing the count. -/
def ContextualizedVariantBatch.append_variant (b : ContextualizedVariantBatch)
    (variant : ContextualizedVariant) : ContextualizedVariantBatch :=
  { b with
    interval_variants := b.interval_variants ++ [variant]
    n_variants := b.n_variants + 1 }

/-- A row of the variant index — the four columns consumed by the
partitioner. -/
structure VRow where
  chromosome : String
  position : Int
  referenceAllele : String
  alternateAllele : String
deriving DecidableEq

/-- Lexicographic (codepoint-wise, equal to byte-wise on ASCII) strict order
on character lists, realizing polars' string column ordering. -/
def charListLt : List Char → List Char → Bool
  | [], [] => false
  | [], _ :: _ => true
  | _ :: _, [] => false
  | a :: as, b :: bs => if a = b then charListLt as bs else decide (a < b)

/-- String comparison used by the canonical sort. -/
def strLt (a b : String) : Bool := charListLt a.data b.data

/-- Lexicographic comparison realizing the polars multi-column sort
`sort("chromosome", "position", "referenceAllele", "alternateAllele")`. -/
def vrowLe (a b : VRow) : Bool :=
  if a.chromosome ≠ b.chromosome then strLt a.chromosome b.chromosome
  else if a.position ≠ b.position then decide (a.position < b.position)
  else if a.referenceAllele ≠ b.referenceAllele then
    strLt a.referenceAllele b.referenceAllele
  else !strLt b.alternateAllele a.alternateAllele

/-- Embedding of `VariantBatchGenerator._batch_id` (batch.py): polars floor
division of the row number by the batch window.  polars integer division by
zero yields null; otherwise it is floor division (`Int.fdiv`). -/
def VariantBatchGenerator._batch_id (row_number : Nat)
    (batch_window : Int) : Option Int :=
  if batch_window = 0 then none
  else some (Int.fdiv row_number batch_window)

/-- The canonical sort of the variant index.  Note that rows carry exactly
the four sort columns, so rows tied on every key are equal and the sorted
list is unique — stability of the sort is immaterial. -/
def sortVariantIndex (variant_index : List VRow) : List VRow :=
  List.insertionSort (fun a b => vrowLe a b = true) variant_index

/-- Sort, `with_row_index`, and the `batchId` column assignment of
`_aggregate_variants_by_batch` (batch.py), before grouping. -/
def withRowIndexAndBatchId (variant_index : List VRow)
    (batch_window : Int) : List (Option Int × VRow) :=
  (sortVariantIndex variant_index).enum.map fun iv =>
    (VariantBatchGenerator._batch_id iv.1 batch_window, iv.2)

/-- Embedding of `VariantBatchGenerator._aggregate_variants_by_batch`
(batch.py): group the indexed rows by their `batchId` and collect each
group's rows. -/
def VariantBatchGenerator._aggregate_variants_by_batch
    (variant_index : List VRow) (batch_window : Int) :
    List (Option Int × List VRow) :=
  (groupByKey Prod.fst (withRowIndexAndBatchId variant_index batch_window)).map
    fun kg => (kg.1, kg.2.map Prod.snd)

/-- Embedding of `VariantBatchGenerator.batch_variant_index` (batch.py): for
each aggregated batch, build the contextualized variants (converting the
chromosome to UCSC naming) and yield a `ContextualizedVariantBatch`; the
constructor call passes `interval_variants` and `batch_id` only, leaving
`n_variants` at its default `0`. -/
def VariantBatchGenerator.batch_variant_index
    (refResize : Variant → Int → GenomicInterval) (variant_index : List VRow)
    (context_window batch_window : Int) : List ContextualizedVariantBatch :=
  (VariantBatchGenerator._aggregate_variants_by_batch variant_index
    batch_window).map fun bg =>
    { interval_variants := bg.2.map fun v =>
        ContextualizedVariant.from_variant refResize
          (ensembl_to_ucsc v.chromosome) v.position v.referenceAllele
          v.alternateAllele context_window bg.1
      batch_id := bg.1 }

/-- Admissible results of `batch_variant_index`: polars `group_by` (without
`maintain_order`) guarantees no group order, so any permutation of the
deterministically built batch list is an admissible output of the
generator. -/
def BatchVariantIndexOutput (refResize : Variant → Int → GenomicInterval)
    (variant_index : List VRow) (context_window batch_window : Int)
    (out : List ContextualizedVariantBatch) : Prop :=
  out.Perm (VariantBatchGenerator.batch_variant_index refResize variant_index
    context_window batch_window)

/-- Strictly ascending integer batch ids along the output sequence. -/
def optIdLt : Option Int → Option Int → Bool
  | some x, some y => decide (x < y)
  | _, _ => false

/-- Whether consecutive ids are strictly ascending. -/
def idsAscendingB : List (Option Int) → Bool
  | [] => true
  | [_] => true
  | a :: b :: t => optIdLt a b && idsAscendingB (b :: t)

/-- The ordering property claimed for the batch sequence. -/
def idsAscending (out : List ContextualizedVariantBatch) : Prop :=
  idsAscendingB (out.map (·.batch_id)) = true

/-- Concrete variant rows used in witnesses and counterexamples. -/
def vrow1 : VRow := ⟨"1", 100, "A", "T"⟩

/-- Second concrete variant row, sorting after `vrow1`. -/
def vrow2 : VRow := ⟨"2", 200, "C", "G"⟩

/-- The file store: a list of `(path, contents)` pairs in write order. -/
abbrev BatchStore := List (String × List TidyRow)

/-- Python f-string rendering of the runtime batch id (an int renders as its
decimal string, `None` as `"None"`). -/
def pyStrOptInt : Option Int → String
  | none => "None"
  | some n => toString n

/-- Embedding of `write_batch` (batch.py): append the file
`{output_path}/batch_{batch_id}.parquet` holding the transformed rows to the
store. -/
def write_batch (transformed_batch : List TidyRow) (output_path : String)
    (batch_id : Option Int) (store : BatchStore) : BatchStore :=
  store ++ [(output_path ++ "/batch_" ++ pyStrOptInt batch_id ++ ".parquet",
    transformed_batch)]

/-- Embedding of `transform_batch` (batch.py).  The external
`variant_scorers.tidy_scores` flattening result is the argument: `none`
models an undefined (Python `None`) result, `some rows` a data frame with
those rows.  The source asserts only `data is not None` and otherwise
returns the rows as a polars frame. -/
def transform_batch (tidyResult : Option (List TidyRow)) :
    Except String (List TidyRow) :=
  match tidyResult with
  | none => Except.error "No data returned from variant scorers."
  | some rows => Except.ok rows

/-- Embedding of `process_batch` (batch.py): annotate (external; its
flattened result is the `tidyResult` argument), transform, then write the
batch file.  When `transform_batch` aborts, the error propagates and the
store is untouched. -/
def process_batch (tidyResult : Option (List TidyRow))
    (c_variants : ContextualizedVariantBatch) (output_path : String)
    (store : BatchStore) : Except String BatchStore :=
  (transform_batch tidyResult).map fun transformed =>
    write_batch transformed output_path c_variants.batch_id store

/-- A non-empty concrete batch with id 7, used for the C7 counterexample. -/
def batch7 : ContextualizedVariantBatch :=
  { interval_variants := [ContextualizedVariant.from_variant centerResize
      "chr1" 100 "A" "T" 10 (some 7)],
    batch_id := some 7, n_variants := 1 }

/-- A concrete contextualized variant, used in witnesses. -/
def cv1 : ContextualizedVariant :=
  ContextualizedVariant.from_variant centerResize "chr1" 100 "A" "T" 10 none

/-- The single batch yielded by
`batch_variant_index centerResize [vrow1] 10 0` (batch window zero):
null batch id and `n_variants` left at 0. -/
def batchW0 : ContextualizedVariantBatch :=
  ⟨[⟨⟨"chr1", 95, 105⟩, ⟨"chr1", 100, "A", "T", "chr1_100_A_T", []⟩⟩], none, 0⟩

/-! ## Schema-level embedding of the `transform_output` dtypes (C3)

The value-level model above deliberately treats score payloads as opaque;
dtype facts are settled here.  `DType` is the relevant fragment of the polars
dtype language, and `transform_output_schema` computes, operation by
operation, the output schema of `transform_output` as a function of the
dtypes the input `raw_score`/`quantile_score` and `junction_Start`/
`junction_End` columns arrive with (the code applies no cast to them; in
practice the flattening stage delivers 64-bit floats). -/

/-- The fragment of polars dtypes needed for the output schema. -/
inductive DType where
  | utf8
  | int64
  | int32
  | float32
  | float64
  | boolean
  | categorical
  | struct (fields : List (String × DType))
  | list (elem : DType)

/-- Dtype of the struct built by `parse_scorer`: all fields from
`str.extract` are `Utf8` except `width`, which the code casts to `Int32`. -/
def scorerStructDType : DType :=
  .struct [("scorerName", .utf8), ("requestedOutput", .utf8),
    ("width", .int32), ("aggregationType", .utf8)]

/-- Dtype of `scored_interval_to_interval_struct`'s struct: the chromosome
string is cast to `Categorical`, start and end to `Int64`. -/
def intervalDType : DType :=
  .struct [("chromosome", .categorical), ("start", .int64), ("end", .int64)]

/-- Dtype of `transform_variant_based_features`'s struct: the score columns
pass through uncast. -/
def variantFeaturesDType (scoreDt : DType) : DType :=
  .struct [("quantileScore", scoreDt), ("rawScore", scoreDt),
    ("variantScorer", scorerStructDType)]

/-- Dtype of `transform_gene_based_features`'s struct. -/
def geneFeaturesDType (scoreDt : DType) : DType :=
  .struct [("geneId", .utf8), ("geneSymbol", .utf8), ("geneType", .utf8),
    ("geneStrand", .utf8), ("quantileScore", scoreDt), ("rawScore", scoreDt),
    ("variantScorer", scorerStructDType)]

/-- Dtype of `transform_junction_based_features`'s struct: the junction
columns also pass through uncast. -/
def junctionFeaturesDType (scoreDt junctionDt : DType) : DType :=
  .struct [("geneId", .utf8), ("geneSymbol", .utf8), ("geneType", .utf8),
    ("geneStrand", .utf8), ("junctionStart", junctionDt),
    ("junctionEnd", junctionDt), ("quantileScore", scoreDt),
    ("rawScore", scoreDt), ("variantScorer", scorerStructDType)]

/-- Dtype of `capture_biosample`'s struct. -/
def biosampleDType : DType :=
  .struct [("ontologyCurie", .utf8), ("biosampleName", .utf8),
    ("biosampleType", .utf8), ("biosampleLifeStage", .utf8),
    ("gtexTissue", .utf8), ("geneticallyModified", .boolean)]

/-- The output schema of `transform_output` as determined by its final
`.select(...)`: `pl.concat_str` yields `Utf8` for `variantId`; the two
`group_by().agg()` steps wrap each feature struct in a list and the final
`list.eval(explode().drop_nulls())`/`list.filter` keeps the inner struct
dtype; no cast to any other schema is applied anywhere in the function. -/
def transform_output_schema (scoreDt junctionDt : DType) :
    List (String × DType) :=
  [("variantId", .utf8), ("interval", intervalDType),
   ("biosampleMetadata", biosampleDType),
   ("variantBasedFeatures", .list (variantFeaturesDType scoreDt)),
   ("geneBasedFeatures", .list (geneFeaturesDType scoreDt)),
   ("spliceJunctionFeatures", .list (junctionFeaturesDType scoreDt junctionDt))]

/-- Dtype lookup of a named column in a schema. -/
def lookupField (fields : List (String × DType)) (n : String) : Option DType :=
  (fields.find? fun f => decide (f.1 = n)).map (·.2)

/-- Dtype of a field inside a list-of-structs column. -/
def featureScoreDType (s : List (String × DType))
    (colName fieldName : String) : Option DType :=
  match lookupField s colName with
  | some (.list (.struct fs)) => lookupField fs fieldName
  | _ => none

/-- Modelled from the spec's words: the dtype requirements C3 states for the
output of `transform_output` — scorer removed at top level, interval with
int64 bounds, and rawScore/quantileScore stored as 32-bit floats inside the
feature structs. -/
def specNormalizedRowCast (s : List (String × DType)) : Prop :=
  lookupField s "scorer" = none ∧
  (∃ chrDt, lookupField s "interval" =
    some (.struct [("chromosome", chrDt), ("start", .int64), ("end", .int64)])) ∧
  featureScoreDType s "variantBasedFeatures" "rawScore" = some .float32 ∧
  featureScoreDType s "variantBasedFeatures" "quantileScore" = some .float32 ∧
  featureScoreDType s "geneBasedFeatures" "rawScore" = some .float32 ∧
  featureScoreDType s "spliceJunctionFeatures" "rawScore" = some .float32

/-! ## Theorems -/

/-- C10: for every bare chromosome name `c` in `{"1".."22","X","Y","MT"}`,
`ucsc_to_ensembl (ensembl_to_ucsc c) = c`, and the two conversions are exact
inverses on this domain and on its prefixed equivalents (`"MT" ↔ "chrM"` being
the special case). -/
theorem chromosome_naming_roundtrip :
    (∀ c, c ∈ bareChromosomes → ucsc_to_ensembl (ensembl_to_ucsc c) = c) ∧
    (∀ p, p ∈ prefixedChromosomes → ensembl_to_ucsc (ucsc_to_ensembl p) = p) ∧
    ensembl_to_ucsc "MT" = "chrM" ∧ ucsc_to_ensembl "chrM" = "MT" := by
  decide

/-- Witness for `chromosome_naming_roundtrip` at the special-cased
mitochondrial name. -/
theorem chromosome_naming_roundtrip_witness :
    ucsc_to_ensembl (ensembl_to_ucsc "MT") = "MT" ∧
    ensembl_to_ucsc (ucsc_to_ensembl "chrM") = "chrM" :=
  ⟨chromosome_naming_roundtrip.1 "MT" (by decide),
   chromosome_naming_roundtrip.2.1 "chrM" (by decide)⟩

theorem extractRunAfter_eq_none_of_not_contains (pat : List Char) (p : Char → Bool) :
    ∀ l : List Char, containsSeq pat l = false → extractRunAfter pat p l = none := by
  intro l
  induction l with
  | nil => intro _; rfl
  | cons c cs ih =>
    intro h
    simp only [containsSeq, Bool.or_eq_false_iff] at h
    simp only [extractRunAfter, h.1, if_false]
    exact ih h.2

/-- C9: `parse_scorer` maps the claimed example strings to the claimed
structs; a missing `width=` (in particular the literal token `None`, which
matches no digit) yields a null width rather than an error or `0`, and more
generally any absent parameter key yields null for that subfield only. -/
theorem parse_scorer_fields :
    parse_scorer
        "CenterMaskScorer(requested_output=CHIP_TF, width=501, aggregation_type=ACTIVE_SUM)" =
      { scorerName := some "CenterMaskScorer", requestedOutput := some "CHIP_TF",
        width := some 501, aggregationType := some "ACTIVE_SUM" } ∧
    parse_scorer "SpliceJunctionScorer()" =
      { scorerName := some "SpliceJunctionScorer", requestedOutput := none,
        width := none, aggregationType := none } ∧
    parse_scorer "GeneMaskSplicingScorer(requested_output=SPLICE_SITE_USAGE, width=None)" =
      { scorerName := some "GeneMaskSplicingScorer",
        requestedOutput := some "SPLICE_SITE_USAGE",
        width := none, aggregationType := none } ∧
    (∀ s : String, containsSeq "width=".data s.data = false →
      (parse_scorer s).width = none) ∧
    (∀ s : String, containsSeq "requested_output=".data s.data = false →
      (parse_scorer s).requestedOutput = none) ∧
    (∀ s : String, containsSeq "aggregation_type=".data s.data = false →
      (parse_scorer s).aggregationType = none) := by
  refine ⟨by decide, by decide, by decide, ?_, ?_, ?_⟩ <;>
    intro s h <;>
    simp only [parse_scorer, extractRunAfter_eq_none_of_not_contains _ _ _ h, Option.map_none']

/-- Witness for `parse_scorer_fields`: the universally quantified conjuncts at
the parameterless scorer string. -/
theorem parse_scorer_fields_witness :
    (parse_scorer "SpliceJunctionScorer()").width = none ∧
    (parse_scorer "SpliceJunctionScorer()").requestedOutput = none ∧
    (parse_scorer "SpliceJunctionScorer()").aggregationType = none :=
  ⟨parse_scorer_fields.2.2.2.1 "SpliceJunctionScorer()" (by decide),
   parse_scorer_fields.2.2.2.2.1 "SpliceJunctionScorer()" (by decide),
   parse_scorer_fields.2.2.2.2.2 "SpliceJunctionScorer()" (by decide)⟩

/-! ## Generic grouping lemmas -/

section Grouping

variable {α κ : Type} [DecidableEq κ]

theorem firstOccKeys_nodup (ks : List κ) : (firstOccKeys ks).Nodup := by
  induction ks with
  | nil => exact List.nodup_nil
  | cons k ks ih =>
    refine List.nodup_cons.mpr ⟨fun hmem => ?_, ih.filter _⟩
    have := (List.mem_filter.mp hmem).2
    simp at this

theorem mem_firstOccKeys {j : κ} {ks : List κ} : j ∈ firstOccKeys ks ↔ j ∈ ks := by
  induction ks with
  | nil => simp [firstOccKeys]
  | cons k ks ih =>
    by_cases hjk : j = k
    · simp [firstOccKeys, hjk]
    · simp [firstOccKeys, hjk, List.mem_filter, ih]

theorem filter_perm_split (p r : α → Bool) (l : List α) :
    (l.filter p).Perm
      ((l.filter fun x => p x && r x) ++ (l.filter fun x => p x && !r x)) := by
  induction l with
  | nil => exact List.Perm.refl _
  | cons a t ih =>
    cases hp : p a with
    | false => simp [List.filter_cons, hp, ih]
    | true =>
      cases hr : r a with
      | true => simpa [List.filter_cons, hp, hr] using ih.cons a
      | false =>
        have h2 : (a :: t.filter p).Perm
            ((t.filter fun x => p x && r x) ++ a :: (t.filter fun x => p x && !r x)) :=
          (ih.cons a).trans List.perm_middle.symm
        simpa [List.filter_cons, hp, hr] using h2

theorem partition_filter_perm (key : α → κ) (q : κ → Bool) :
    ∀ (ks : List κ) (l : List α), ks.Nodup → (∀ x ∈ l, key x ∈ ks) →
      ((((ks.filter q).map fun k => l.filter fun x => decide (key x = k)).flatten).Perm
        (l.filter fun x => q (key x)))
  | [], l, _, hcov => by
    have hl : l = [] := List.eq_nil_iff_forall_not_mem.mpr fun x hx => by
      simpa using hcov x hx
    subst hl
    simp
  | k :: ks, l, hnd, hcov => by
    have hk : k ∉ ks := (List.nodup_cons.mp hnd).1
    have hnd' : ks.Nodup := (List.nodup_cons.mp hnd).2
    set l₂ := l.filter fun x => !decide (key x = k) with hl₂
    have cov₂ : ∀ x ∈ l₂, key x ∈ ks := by
      intro x hx
      rcases List.mem_filter.mp hx with ⟨hxl, hne⟩
      rcases List.mem_cons.mp (hcov x hxl) with h | h
      · simp [h] at hne
      · exact h
    have hrw : ∀ j ∈ ks.filter q,
        (l.filter fun x => decide (key x = j)) =
          (l₂.filter fun x => decide (key x = j)) := by
      intro j hj
      have hjk : j ≠ k := fun e => hk (e ▸ (List.mem_filter.mp hj).1)
      rw [hl₂, List.filter_filter]
      refine List.filter_congr fun x _ => ?_
      by_cases hxj : key x = j
      · simp [hxj, hjk]
      · simp [hxj]
    have ihp := partition_filter_perm key q ks l₂ hnd' cov₂
    by_cases hqk : q k
    · have hsplit := filter_perm_split (fun x => q (key x)) (fun x => decide (key x = k)) l
      have h1 : (l.filter fun x => q (key x) && decide (key x = k)) =
          (l.filter fun x => decide (key x = k)) := by
        refine List.filter_congr fun x _ => ?_
        by_cases hxk : key x = k
        · simp [hxk, hqk]
        · simp [hxk]
      have h2 : (l.filter fun x => q (key x) && !decide (key x = k)) =
          (l₂.filter fun x => q (key x)) := by
        rw [hl₂, List.filter_filter]
      rw [List.filter_cons_of_pos hqk, List.map_cons, List.flatten_cons,
        List.map_congr_left hrw]
      exact ((List.Perm.refl _).append ihp).trans
        ((h1 ▸ h2 ▸ hsplit : (l.filter fun x => q (key x)).Perm _).symm)
    · have h3 : (l.filter fun x => q (key x)) = (l₂.filter fun x => q (key x)) := by
        rw [hl₂, List.filter_filter]
        refine List.filter_congr fun x _ => ?_
        by_cases hxk : key x = k
        · simp [hxk, hqk]
        · simp [hxk]
      rw [List.filter_cons_of_neg hqk, List.map_congr_left hrw, h3]
      exact ihp

theorem groupByKey_map_fst (key : α → κ) (l : List α) :
    (groupByKey key l).map Prod.fst = firstOccKeys (l.map key) := by
  simp [groupByKey, List.map_map, Function.comp_def]

theorem groupByKey_fst_nodup (key : α → κ) (l : List α) :
    ((groupByKey key l).map Prod.fst).Nodup := by
  rw [groupByKey_map_fst]; exact firstOccKeys_nodup _

theorem mem_groupByKey_fst {key : α → κ} {l : List α} {k : κ} :
    k ∈ (groupByKey key l).map Prod.fst ↔ k ∈ l.map key := by
  rw [groupByKey_map_fst]; exact mem_firstOccKeys

theorem groupByKey_mem {key : α → κ} {l : List α} {kg : κ × List α}
    (h : kg ∈ groupByKey key l) :
    kg.2 = l.filter fun x => decide (key x = kg.1) := by
  rcases List.mem_map.mp h with ⟨k, _, rfl⟩
  rfl

theorem groupByKey_snd_flatten_perm (key : α → κ) (l : List α) :
    ((((groupByKey key l).map Prod.snd).flatten)).Perm l := by
  have h := partition_filter_perm key (fun _ => true)
    (firstOccKeys (l.map key)) l (firstOccKeys_nodup _)
    (fun x hx => mem_firstOccKeys.mpr (List.mem_map_of_mem key hx))
  simpa [groupByKey, List.map_map, Function.comp, List.filter_true] using h

theorem groupByKey_coarse_flatten_perm (key : α → κ) {β : Type} [DecidableEq β]
    (coarse : κ → β) (c : β) (l : List α) :
    (((((groupByKey key l).filter fun kg => decide (coarse kg.1 = c)).map
        Prod.snd).flatten)).Perm
      (l.filter fun x => decide (coarse (key x) = c)) := by
  have h := partition_filter_perm key (fun k => decide (coarse k = c))
    (firstOccKeys (l.map key)) l (firstOccKeys_nodup _)
    (fun x hx => mem_firstOccKeys.mpr (List.mem_map_of_mem key hx))
  have hrw : ((groupByKey key l).filter fun kg => decide (coarse kg.1 = c)).map
      Prod.snd =
      ((firstOccKeys (l.map key)).filter fun k => decide (coarse k = c)).map
        fun k => l.filter fun x => decide (key x = k) := by
    rw [groupByKey, List.filter_map, List.map_map]
    rfl
  rw [hrw]
  exact h

end Grouping

/-! ## Structural lemmas about `transform_output` -/

theorem coarseOfKey1_groupKey1 (p : ParsedRow) :
    coarseOfKey1 (groupKey1 p) = coarseKey p := rfl

theorem grouped2_map_normKey (s : List GroupedRow2) :
    (transform_grouped2 s).map normKey = (groupByKey groupKey2 s).map Prod.fst := by
  rw [transform_grouped2, List.map_map]
  exact List.map_congr_left fun kg _ => rfl

theorem transform_grouped2_nodup (s : List GroupedRow2) :
    (transform_grouped2 s).Nodup :=
  List.Nodup.of_map normKey
    (by rw [grouped2_map_normKey]; exact groupByKey_fst_nodup _ _)

theorem transform_output_eq (rows : List TidyRow) :
    transform_output rows =
      transform_grouped2 ((transform_grouped1
        (rows.map transform_select_row)).map transform_select_biosample) := by
  rw [transform_output]
  exact List.dedup_eq_self.mpr (transform_grouped2_nodup _)

theorem selected2_map_groupKey2 (parsed : List ParsedRow) :
    ((transform_grouped1 parsed).map transform_select_biosample).map groupKey2 =
      (firstOccKeys (parsed.map groupKey1)).map coarseOfKey1 := by
  rw [transform_grouped1, List.map_map, List.map_map, groupByKey, List.map_map]
  exact List.map_congr_left fun k _ => rfl

theorem coarseKey_mem_selected2 {parsed : List ParsedRow} {p : ParsedRow}
    (hp : p ∈ parsed) :
    coarseKey p ∈
      ((transform_grouped1 parsed).map transform_select_biosample).map groupKey2 := by
  rw [selected2_map_groupKey2]
  exact List.mem_map.mpr
    ⟨groupKey1 p, mem_firstOccKeys.mpr (List.mem_map_of_mem _ hp), rfl⟩

theorem selected2_filter_map_eq {F : Type} (parsed : List ParsedRow)
    (k : GroupKey2) (fG2 : GroupedRow2 → List (Option F))
    (fP : ParsedRow → Option F)
    (hcomm : ∀ kg : GroupKey1 × List ParsedRow,
      fG2 (transform_select_biosample (GroupedRow1.mk kg.1
        (kg.2.map (·.variantBasedFeatures)) (kg.2.map (·.geneBasedFeatures))
        (kg.2.map (·.spliceJunctionFeatures)))) = kg.2.map fP) :
    ((((transform_grouped1 parsed).map transform_select_biosample).filter
        fun g => decide (groupKey2 g = k)).map fG2) =
      (((groupByKey groupKey1 parsed).filter fun kg =>
        decide (coarseOfKey1 kg.1 = k)).map fun kg => kg.2.map fP) := by
  rw [transform_grouped1, List.map_map, List.filter_map, List.map_map]
  exact List.map_congr_left fun kg _ => hcomm kg

theorem collect_group_perm {F : Type} [DecidableEq F] (f : ParsedRow → Option F)
    (k : GroupKey2) (parsed : List ParsedRow) :
    (collectFeatures (((groupByKey groupKey1 parsed).filter fun kg =>
        decide (coarseOfKey1 kg.1 = k)).map fun kg => kg.2.map f)).Perm
      ((parsed.filter fun p => decide (coarseKey p = k)).filterMap f) := by
  have hflat := groupByKey_coarse_flatten_perm groupKey1 coarseOfKey1 k parsed
  have hcollect :
      collectFeatures (((groupByKey groupKey1 parsed).filter fun kg =>
          decide (coarseOfKey1 kg.1 = k)).map fun kg => kg.2.map f) =
        (((((groupByKey groupKey1 parsed).filter fun kg =>
          decide (coarseOfKey1 kg.1 = k)).map Prod.snd).flatten)).filterMap f := by
    rw [collectFeatures,
      show (((groupByKey groupKey1 parsed).filter fun kg =>
          decide (coarseOfKey1 kg.1 = k)).map fun kg => kg.2.map f) =
        ((((groupByKey groupKey1 parsed).filter fun kg =>
          decide (coarseOfKey1 kg.1 = k)).map Prod.snd).map (List.map f)) by
        rw [List.map_map]; rfl,
      ← List.map_flatten, List.filterMap_map]
    rfl
  rw [hcollect]
  exact (hflat.filterMap f).trans (List.Perm.of_eq rfl)

/-- Every output row's three feature lists are exactly (as multisets) the
non-null feature values of the parsed input rows sharing its
`(variantId, interval, biosampleMetadata)` key. -/
theorem transform_output_row_perm (rows : List TidyRow) (o : NormalizedRow)
    (ho : o ∈ transform_output rows) :
    (o.variantBasedFeatures.Perm
      (((rows.map transform_select_row).filter fun p =>
        decide (coarseKey p = normKey o)).filterMap (·.variantBasedFeatures))) ∧
    (o.geneBasedFeatures.Perm
      (((rows.map transform_select_row).filter fun p =>
        decide (coarseKey p = normKey o)).filterMap (·.geneBasedFeatures))) ∧
    (o.spliceJunctionFeatures.Perm
      (((rows.map transform_select_row).filter fun p =>
        decide (coarseKey p = normKey o)).filterMap (·.spliceJunctionFeatures))) := by
  rw [transform_output] at ho
  have ho' := List.mem_dedup.mp ho
  rw [transform_grouped2] at ho'
  rcases List.mem_map.mp ho' with ⟨kg, hkg, rfl⟩
  have hsnd := groupByKey_mem hkg
  refine ⟨?_, ?_, ?_⟩
  · show (collectFeatures (kg.2.map (·.variantBasedFeatures))).Perm _
    rw [hsnd, selected2_filter_map_eq _ kg.1 _ (·.variantBasedFeatures)
      (fun _ => rfl)]
    exact collect_group_perm (·.variantBasedFeatures) kg.1 _
  · show (collectFeatures (kg.2.map (·.geneBasedFeatures))).Perm _
    rw [hsnd, selected2_filter_map_eq _ kg.1 _ (·.geneBasedFeatures)
      (fun _ => rfl)]
    exact collect_group_perm (·.geneBasedFeatures) kg.1 _
  · show (collectFeatures (kg.2.map (·.spliceJunctionFeatures))).Perm _
    rw [hsnd, selected2_filter_map_eq _ kg.1 _ (·.spliceJunctionFeatures)
      (fun _ => rfl)]
    exact collect_group_perm (·.spliceJunctionFeatures) kg.1 _

/-- The output keys of `transform_output` are exactly the distinct
`(variantId, interval, biosampleMetadata)` keys occurring among the parsed
input rows. -/
theorem mem_normKeys_iff (rows : List TidyRow) (k : GroupKey2) :
    k ∈ (transform_output rows).map normKey ↔
      k ∈ (rows.map transform_select_row).map coarseKey := by
  rw [transform_output_eq, grouped2_map_normKey]
  refine mem_groupByKey_fst.trans ?_
  rw [selected2_map_groupKey2]
  constructor
  · intro h
    rcases List.mem_map.mp h with ⟨k1, hk1, rfl⟩
    rcases List.mem_map.mp (mem_firstOccKeys.mp hk1) with ⟨p, hp, rfl⟩
    exact List.mem_map.mpr ⟨p, hp, rfl⟩
  · intro h
    rcases List.mem_map.mp h with ⟨p, hp, rfl⟩
    exact List.mem_map.mpr
      ⟨groupKey1 p, mem_firstOccKeys.mpr (List.mem_map_of_mem _ hp), rfl⟩

/-- The output rows of `transform_output` carry pairwise distinct keys. -/
theorem normKeys_nodup (rows : List TidyRow) :
    ((transform_output rows).map normKey).Nodup := by
  rw [transform_output_eq, grouped2_map_normKey]
  exact groupByKey_fst_nodup _ _

theorem sum_map_add {α : Type} (f g : α → Nat) (l : List α) :
    (l.map fun x => f x + g x).sum = (l.map f).sum + (l.map g).sum := by
  induction l with
  | nil => rfl
  | cons a t ih => simp only [List.map_cons, List.sum_cons, ih]; omega

theorem sum_filterMap_partition {F : Type} (f : ParsedRow → Option F)
    (parsed : List ParsedRow) (ks : List GroupKey2) (hnd : ks.Nodup)
    (hcov : ∀ p ∈ parsed, coarseKey p ∈ ks) :
    (ks.map fun k =>
      ((parsed.filter fun p => decide (coarseKey p = k)).filterMap f).length).sum
      = (parsed.filterMap f).length := by
  have hperm := partition_filter_perm coarseKey (fun _ => true) ks parsed hnd hcov
  simp only [List.filter_true] at hperm
  rw [show (ks.map fun k =>
        ((parsed.filter fun p => decide (coarseKey p = k)).filterMap f).length) =
      ((ks.map fun k =>
        (parsed.filter fun p => decide (coarseKey p = k)).filterMap f).map
          List.length) by rw [List.map_map]; rfl]
  rw [← List.length_flatten]
  rw [show (ks.map fun k =>
        (parsed.filter fun p => decide (coarseKey p = k)).filterMap f) =
      ((ks.map fun k =>
        parsed.filter fun p => decide (coarseKey p = k)).map
          (List.filterMap f)) by rw [List.map_map]; rfl]
  rw [← List.filterMap_flatten]
  exact (hperm.filterMap f).length_eq

theorem parsed_trichotomy_total (rows : List TidyRow) :
    ((rows.map transform_select_row).filterMap (·.variantBasedFeatures)).length +
      ((rows.map transform_select_row).filterMap (·.geneBasedFeatures)).length +
      ((rows.map transform_select_row).filterMap
        (·.spliceJunctionFeatures)).length = rows.length := by
  induction rows with
  | nil => rfl
  | cons r t ih =>
    rcases hg : r.gene_id with _ | gv <;> rcases hj : r.junction_Start with _ | jv <;>
      simp only [List.map_cons, List.filterMap_cons, transform_select_row, hg, hj,
        Option.isSome_none, Option.isSome_some, Bool.false_eq_true, false_and,
        true_and, and_true, if_false, if_true, List.length_cons,
        Option.some_ne_none, reduceCtorEq, and_false, not_false_eq_true,
        if_neg, if_pos] <;>
      omega

/-- Conservation of contributions: the total number of feature records across
all three lists of all output rows equals the number of input tidy rows. -/
theorem transform_output_conservation (rows : List TidyRow) :
    ((transform_output rows).map fun o =>
      o.variantBasedFeatures.length + o.geneBasedFeatures.length +
        o.spliceJunctionFeatures.length).sum = rows.length := by
  have hrw : ((transform_output rows).map fun o =>
      o.variantBasedFeatures.length + o.geneBasedFeatures.length +
        o.spliceJunctionFeatures.length) =
      ((transform_output rows).map fun o =>
        (((rows.map transform_select_row).filter fun p =>
          decide (coarseKey p = normKey o)).filterMap
            (·.variantBasedFeatures)).length +
        (((rows.map transform_select_row).filter fun p =>
          decide (coarseKey p = normKey o)).filterMap
            (·.geneBasedFeatures)).length +
        (((rows.map transform_select_row).filter fun p =>
          decide (coarseKey p = normKey o)).filterMap
            (·.spliceJunctionFeatures)).length) :=
    List.map_congr_left fun o ho => by
      obtain ⟨h1, h2, h3⟩ := transform_output_row_perm rows o ho
      rw [h1.length_eq, h2.length_eq, h3.length_eq]
  rw [hrw, sum_map_add, sum_map_add]
  have hks : ∀ fP : ParsedRow → Option VariantFeatures, True := fun _ => trivial
  have hnd := normKeys_nodup rows
  have hcov : ∀ p ∈ rows.map transform_select_row,
      coarseKey p ∈ (transform_output rows).map normKey := fun p hp =>
    (mem_normKeys_iff rows (coarseKey p)).mpr (List.mem_map_of_mem _ hp)
  have hone : ∀ {F : Type} (f : ParsedRow → Option F),
      ((transform_output rows).map fun o =>
        (((rows.map transform_select_row).filter fun p =>
          decide (coarseKey p = normKey o)).filterMap f).length).sum =
      ((rows.map transform_select_row).filterMap f).length := by
    intro F f
    rw [show ((transform_output rows).map fun o =>
        (((rows.map transform_select_row).filter fun p =>
          decide (coarseKey p = normKey o)).filterMap f).length) =
      (((transform_output rows).map normKey).map fun k =>
        (((rows.map transform_select_row).filter fun p =>
          decide (coarseKey p = k)).filterMap f).length) by
        rw [List.map_map]; rfl]
    exact sum_filterMap_partition f _ _ hnd hcov
  rw [hone, hone, hone]
  exact parsed_trichotomy_total rows

/-! ## C1 — per-row classification and single contribution -/

/-- C1: every `TidyRow` is classified by `transform_output`'s first select
into exactly one of the three feature columns, determined solely by the
nullability of `gene_id` and `junction_Start` (null gene → variant-level;
gene set and junction null → gene-level; both set → junction-level), and
globally every input row contributes exactly one feature record to exactly
one of the three output lists: the total length of all three lists over all
output rows equals the number of input rows. -/
theorem tidy_row_single_contribution :
    (∀ r : TidyRow,
      (r.gene_id = none →
        (transform_select_row r).variantBasedFeatures.isSome = true ∧
        (transform_select_row r).geneBasedFeatures = none ∧
        (transform_select_row r).spliceJunctionFeatures = none) ∧
      (r.gene_id.isSome = true → r.junction_Start = none →
        (transform_select_row r).geneBasedFeatures.isSome = true ∧
        (transform_select_row r).variantBasedFeatures = none ∧
        (transform_select_row r).spliceJunctionFeatures = none) ∧
      (r.gene_id.isSome = true → r.junction_Start.isSome = true →
        (transform_select_row r).spliceJunctionFeatures.isSome = true ∧
        (transform_select_row r).variantBasedFeatures = none ∧
        (transform_select_row r).geneBasedFeatures = none)) ∧
    (∀ rows : List TidyRow,
      ((transform_output rows).map fun o =>
        o.variantBasedFeatures.length + o.geneBasedFeatures.length +
          o.spliceJunctionFeatures.length).sum = rows.length) := by
  refine ⟨fun r => ⟨fun hg => ?_, fun hg hj => ?_, fun hg hj => ?_⟩,
    transform_output_conservation⟩
  · simp [transform_select_row, hg]
  · simp [transform_select_row, hg, hj, Option.isSome_iff_ne_none.mp hg]
  · simp [transform_select_row, hg, hj, Option.isSome_iff_ne_none.mp hg,
      Option.isSome_iff_ne_none.mp hj]

/-- Witness for `tidy_row_single_contribution`: the three classification
branches applied to concrete variant-, gene- and junction-level rows. -/
theorem tidy_row_single_contribution_witness :
    ((transform_select_row tidyRowA).variantBasedFeatures.isSome = true ∧
      (transform_select_row tidyRowA).geneBasedFeatures = none ∧
      (transform_select_row tidyRowA).spliceJunctionFeatures = none) ∧
    ((transform_select_row tidyRowGene).geneBasedFeatures.isSome = true ∧
      (transform_select_row tidyRowGene).variantBasedFeatures = none ∧
      (transform_select_row tidyRowGene).spliceJunctionFeatures = none) ∧
    ((transform_select_row tidyRowJunc).spliceJunctionFeatures.isSome = true ∧
      (transform_select_row tidyRowJunc).variantBasedFeatures = none ∧
      (transform_select_row tidyRowJunc).geneBasedFeatures = none) :=
  ⟨(tidy_row_single_contribution.1 tidyRowA).1 (by decide),
   (tidy_row_single_contribution.1 tidyRowGene).2.1 (by decide) (by decide),
   (tidy_row_single_contribution.1 tidyRowJunc).2.2 (by decide) (by decide)⟩

/-- Counterexample to C2 as stated: `tidyRowA` and `tidyRowB` agree on
`variantId`, `interval` and all four claimed biosample fields (they differ
only in `gtex_tissue`), so grouping by the claimed four-field key would
merge them into one output row — but `transform_output` produces two rows,
because the code's `capture_biosample` key has six fields including
`gtexTissue`. -/
theorem biosample_key_four_field_counterexample :
    specGroupKey (transform_select_row tidyRowA) =
      specGroupKey (transform_select_row tidyRowB) ∧
    (firstOccKeys ([tidyRowA, tidyRowB].map fun r =>
      specGroupKey (transform_select_row r))).length = 1 ∧
    (transform_output [tidyRowA, tidyRowB]).length = 2 := by
  refine ⟨by decide, by decide, by decide⟩

/-- C2 (amended): `transform_output` groups rows by
`(variantId, interval, biosampleMetadata)` where the biosample struct is the
six-field `capture_biosample` struct `{ontologyCurie, biosampleName,
biosampleType, biosampleLifeStage, gtexTissue, geneticallyModified}`; there
is exactly one output row per distinct such key, and within each group all
non-null values of the three feature-struct columns are collected into the
three lists. -/
theorem transform_output_grouping (rows : List TidyRow) :
    ((transform_output rows).map normKey).Nodup ∧
    (∀ k : GroupKey2, k ∈ (transform_output rows).map normKey ↔
      k ∈ (rows.map transform_select_row).map coarseKey) ∧
    (∀ o ∈ transform_output rows,
      (o.variantBasedFeatures.Perm
        (((rows.map transform_select_row).filter fun p =>
          decide (coarseKey p = normKey o)).filterMap
            (·.variantBasedFeatures))) ∧
      (o.geneBasedFeatures.Perm
        (((rows.map transform_select_row).filter fun p =>
          decide (coarseKey p = normKey o)).filterMap
            (·.geneBasedFeatures))) ∧
      (o.spliceJunctionFeatures.Perm
        (((rows.map transform_select_row).filter fun p =>
          decide (coarseKey p = normKey o)).filterMap
            (·.spliceJunctionFeatures)))) :=
  ⟨normKeys_nodup rows, mem_normKeys_iff rows, transform_output_row_perm rows⟩

/-- Witness for `transform_output_grouping`: instantiated on the singleton
input `[tidyRowA]` and its concrete output row `outRowA`. -/
theorem transform_output_grouping_witness :
    (outRowA.variantBasedFeatures.Perm
      ((([tidyRowA].map transform_select_row).filter fun p =>
        decide (coarseKey p = normKey outRowA)).filterMap
          (·.variantBasedFeatures))) ∧
    (outRowA.geneBasedFeatures.Perm
      ((([tidyRowA].map transform_select_row).filter fun p =>
        decide (coarseKey p = normKey outRowA)).filterMap
          (·.geneBasedFeatures))) ∧
    (outRowA.spliceJunctionFeatures.Perm
      ((([tidyRowA].map transform_select_row).filter fun p =>
        decide (coarseKey p = normKey outRowA)).filterMap
          (·.spliceJunctionFeatures))) :=
  (transform_output_grouping [tidyRowA]).2.2 outRowA
    (by rw [show transform_output [tidyRowA] = [outRowA] from by decide]
        exact List.mem_singleton.mpr rfl)

theorem batch_variant_index_map_ids
    (refResize : Variant → Int → GenomicInterval) (variant_index : List VRow)
    (context_window batch_window : Int) :
    (VariantBatchGenerator.batch_variant_index refResize variant_index
      context_window batch_window).map (·.batch_id) =
      firstOccKeys ((withRowIndexAndBatchId variant_index batch_window).map
        Prod.fst) := by
  rw [VariantBatchGenerator.batch_variant_index,
    VariantBatchGenerator._aggregate_variants_by_batch, List.map_map,
    List.map_map,
    ← groupByKey_map_fst Prod.fst
      (withRowIndexAndBatchId variant_index batch_window)]
  exact List.map_congr_left fun kg _ => rfl

/-! ## C4 — the `n_variants == len(interval_variants)` invariant -/

/-- C4: the mutator `append_variant` preserves
`n_variants == len(interval_variants)`, but `batch_variant_index` yields
pre-populated batches with `n_variants` left at its default 0 — for a
one-row index the yielded batch has one contextualized variant and
`n_variants = 0`, violating the claimed invariant (the code contradicts the
field's own documentation). -/
theorem batch_n_variants_invariant :
    (∀ (b : ContextualizedVariantBatch) (v : ContextualizedVariant),
      b.n_variants = b.interval_variants.length →
      (b.append_variant v).n_variants =
        (b.append_variant v).interval_variants.length) ∧
    (∀ refResize : Variant → Int → GenomicInterval,
      (VariantBatchGenerator.batch_variant_index refResize [vrow1] 10 1).map
        (fun b => (b.n_variants, b.interval_variants.length)) = [(0, 1)]) := by
  constructor
  · intro b v h
    simp [ContextualizedVariantBatch.append_variant, h]
  · intro refResize
    rfl

/-- Witness for `batch_n_variants_invariant`: the append branch at a concrete
batch and variant. -/
theorem batch_n_variants_invariant_witness :
    ((⟨[], some 0, 0⟩ : ContextualizedVariantBatch).append_variant
      cv1).n_variants =
      ((⟨[], some 0, 0⟩ : ContextualizedVariantBatch).append_variant
        cv1).interval_variants.length :=
  batch_n_variants_invariant.1 ⟨[], some 0, 0⟩ cv1 (by decide)

/-! ## C5 — batch id assignment -/

/-- C5: for every input relation and positive batch window `W`, the row at
zero-based rank `r` of the canonically sorted input is assigned batch id
`floor(r / W)`; rendered as a decimal string (as the f-strings in `batch.py`
do), with `W = 10` ranks 0 and 9 share id `"0"` while rank 10 gets `"1"`. -/
theorem batch_id_floor_division :
    (∀ (variant_index : List VRow) (batch_window : Int), 0 < batch_window →
      ∀ (r : Nat)
        (hr : r < (withRowIndexAndBatchId variant_index batch_window).length),
        ((withRowIndexAndBatchId variant_index batch_window).get ⟨r, hr⟩).1 =
          some (Int.fdiv r batch_window)) ∧
    (VariantBatchGenerator._batch_id 0 10).map toString = some "0" ∧
    (VariantBatchGenerator._batch_id 9 10).map toString = some "0" ∧
    (VariantBatchGenerator._batch_id 10 10).map toString = some "1" ∧
    (some "0" : Option String) ≠ some "1" := by
  refine ⟨?_, by decide, by decide, by decide, by decide⟩
  intro vi W hW r hr
  simp only [withRowIndexAndBatchId, List.get_eq_getElem, List.getElem_map,
    List.getElem_enum, VariantBatchGenerator._batch_id,
    if_neg (by omega : ¬ W = 0)]

/-- Witness for `batch_id_floor_division` at a two-row index, window 10,
rank 0. -/
theorem batch_id_floor_division_witness :
    ((withRowIndexAndBatchId [vrow1, vrow2] 10).get ⟨0, by decide⟩).1 =
      some (Int.fdiv 0 10) :=
  batch_id_floor_division.1 [vrow1, vrow2] 10 (by decide) 0 (by decide)

/-! ## C6 — the yielded batch sequence -/

/-- Counterexample to C6 as stated: polars `group_by` does not guarantee
group order, so ascending batch-id order is not guaranteed — the reversed
batch list is an admissible output of `batch_variant_index` on a two-batch
input but is not in ascending id order. -/
theorem batch_order_counterexample :
    ¬ (∀ out : List ContextualizedVariantBatch,
        BatchVariantIndexOutput centerResize [vrow1, vrow2] 10 1 out →
          idsAscending out) := by
  intro h
  have hadm : BatchVariantIndexOutput centerResize [vrow1, vrow2] 10 1
      ((VariantBatchGenerator.batch_variant_index centerResize [vrow1, vrow2]
        10 1).reverse) := List.reverse_perm _
  have hasc := h _ hadm
  unfold idsAscending at hasc
  revert hasc
  decide

/-- C6 (amended): every admissible output of `batch_variant_index` contains
exactly one batch per distinct batch id (ids pairwise distinct, and exactly
the ids assigned to the sorted rows), and an empty input yields the empty
sequence — but the order of the batches is not guaranteed. -/
theorem batch_variant_index_batches
    (refResize : Variant → Int → GenomicInterval) (variant_index : List VRow)
    (context_window batch_window : Int)
    (out : List ContextualizedVariantBatch)
    (hout : BatchVariantIndexOutput refResize variant_index context_window
      batch_window out) :
    (out.map (·.batch_id)).Nodup ∧
    (∀ bid : Option Int, bid ∈ out.map (·.batch_id) ↔
      bid ∈ (withRowIndexAndBatchId variant_index batch_window).map Prod.fst) ∧
    (variant_index = [] → out = []) := by
  have hids := hout.map (·.batch_id)
  rw [batch_variant_index_map_ids] at hids
  refine ⟨hids.nodup_iff.mpr (firstOccKeys_nodup _), fun bid => ?_,
    fun hvi => ?_⟩
  · exact hids.mem_iff.trans mem_firstOccKeys
  · subst hvi
    exact List.Perm.eq_nil hout

/-- Witness for `batch_variant_index_batches`: the canonical output of a
two-row index, and the empty input. -/
theorem batch_variant_index_batches_witness :
    ((VariantBatchGenerator.batch_variant_index centerResize [vrow1, vrow2]
      10 1).map (·.batch_id)).Nodup ∧
    ([] : List ContextualizedVariantBatch) = [] :=
  ⟨(batch_variant_index_batches centerResize [vrow1, vrow2] 10 1 _
      (List.Perm.refl _)).1,
   (batch_variant_index_batches centerResize [] 10 1 [] List.Perm.nil).2.2 rfl⟩

/-! ## C7 — the "No data returned" abort -/

/-- Counterexample to C7 as stated: a zero-row flattening result is *not*
treated as an error — `transform_batch` only asserts the result is not
`None`, so for a non-empty batch with an empty tidy result `process_batch`
writes an empty output file instead of aborting. -/
theorem empty_tidy_result_counterexample :
    transform_batch (some []) = Except.ok [] ∧
    batch7.interval_variants.length = 1 ∧
    process_batch (some []) batch7 "out" [] =
      Except.ok [("out/batch_7.parquet", [])] :=
  ⟨rfl, rfl, rfl⟩

/-- C7 (amended): only an undefined (`None`) flattening result aborts the
batch, with the explicit "No data returned" error and no file written; any
actual row list — including the empty one — is written by `process_batch`. -/
theorem transform_batch_error_policy :
    (transform_batch none =
      Except.error "No data returned from variant scorers.") ∧
    (∀ (b : ContextualizedVariantBatch) (path : String) (store : BatchStore),
      process_batch none b path store =
        Except.error "No data returned from variant scorers.") ∧
    (∀ (rows : List TidyRow) (b : ContextualizedVariantBatch) (path : String)
      (store : BatchStore),
      process_batch (some rows) b path store =
        Except.ok (write_batch rows path b.batch_id store)) :=
  ⟨rfl, fun _ _ _ => rfl, fun _ _ _ _ => rfl⟩

/-! ## C8 — configuration validation -/

/-- Counterexample to C8 as stated: `batch_variant_index` does not fail for
a non-positive batch window — with `batchWindow = 0` polars floor division
by zero makes every batch id null and one batch containing all rows is
yielded, and with `batchWindow = -5` negative floor-division ids are
yielded. -/
theorem batch_window_nonpositive_counterexample :
    (VariantBatchGenerator.batch_variant_index centerResize [vrow1, vrow2]
      10 0).map (fun b => (b.batch_id, b.interval_variants.length)) =
      [(none, 2)] ∧
    (VariantBatchGenerator.batch_variant_index centerResize [vrow1, vrow2]
      10 (-5)).map (·.batch_id) = [some 0, some (-1)] :=
  ⟨by decide, by decide⟩

/-- C8 (amended): neither value is validated.  `batch_variant_index` accepts
`batchWindow = 0` (every batch id is null) and negative windows; and
`from_variant` applies no `window_size` check of its own — it always builds
the variant and hands `window_size` unchanged to the external
interval-resize computation. -/
theorem no_window_validation :
    (∀ (variant_index : List VRow) (context_window batch_window : Int)
      (refResize : Variant → Int → GenomicInterval), batch_window = 0 →
      ∀ b ∈ VariantBatchGenerator.batch_variant_index refResize variant_index
        context_window batch_window, b.batch_id = none) ∧
    (∀ (refResize : Variant → Int → GenomicInterval) (chrom : String)
      (pos : Int) (rb ab : String) (w : Int) (bid : Option Int),
      (ContextualizedVariant.from_variant refResize chrom pos rb ab w
        bid).variant.name =
        chrom ++ "_" ++ toString pos ++ "_" ++ rb ++ "_" ++ ab ∧
      (ContextualizedVariant.from_variant refResize chrom pos rb ab w
        bid).interval =
        refResize (ContextualizedVariant.from_variant refResize chrom pos rb
          ab w bid).variant w) := by
  constructor
  · intro vi cw W refResize hW b hb
    subst hW
    have hmem : b.batch_id ∈
        (VariantBatchGenerator.batch_variant_index refResize vi cw 0).map
          (·.batch_id) := List.mem_map_of_mem _ hb
    rw [batch_variant_index_map_ids] at hmem
    have hmem2 := mem_firstOccKeys.mp hmem
    rw [withRowIndexAndBatchId] at hmem2
    rcases List.mem_map.mp hmem2 with ⟨y, hy, hye⟩
    rcases List.mem_map.mp hy with ⟨iv, _, rfl⟩
    simpa [VariantBatchGenerator._batch_id] using hye.symm
  · intro refResize chrom pos rb ab w bid
    exact ⟨rfl, rfl⟩

/-- Witness for `no_window_validation` at `batchWindow = 0` on a one-row
index. -/
theorem no_window_validation_witness : batchW0.batch_id = none :=
  no_window_validation.1 [vrow1] 10 0 centerResize rfl batchW0 (by decide)

/-- Counterexample to C3 as stated: `transform_output` applies no cast — on
the 64-bit float score columns the flattening stage delivers, the feature
structs keep `Float64` raw/quantile scores, so the result does not satisfy
the claimed NormalizedRow cast (32-bit floats). -/
theorem normalized_schema_cast_counterexample :
    featureScoreDType (transform_output_schema .float64 .float64)
      "variantBasedFeatures" "rawScore" = some .float64 ∧
    ¬ specNormalizedRowCast (transform_output_schema .float64 .float64) := by
  refine ⟨rfl, fun h => ?_⟩
  have h1 := h.2.2.1
  rw [show featureScoreDType (transform_output_schema .float64 .float64)
      "variantBasedFeatures" "rawScore" = some .float64 from rfl] at h1
  exact DType.noConfusion (Option.some.inj h1)

/-- C3 (amended): `transform_output`'s result has the camelCase columns
`variantId, interval, biosampleMetadata` and the three feature lists, with
the scorer removed at top level (folded into the feature structs), interval
= {chromosome: categorical string, start: int64, end: int64} — but no
schema cast is applied: rawScore/quantileScore inside the feature structs
keep whatever dtype the input score columns have (64-bit floats in practice)
instead of being cast to 32-bit floats. -/
theorem transform_output_schema_uncast (scoreDt junctionDt : DType) :
    ((transform_output_schema scoreDt junctionDt).map Prod.fst =
      ["variantId", "interval", "biosampleMetadata", "variantBasedFeatures",
       "geneBasedFeatures", "spliceJunctionFeatures"]) ∧
    lookupField (transform_output_schema scoreDt junctionDt) "scorer" = none ∧
    lookupField (transform_output_schema scoreDt junctionDt) "interval" =
      some (.struct [("chromosome", .categorical), ("start", .int64),
        ("end", .int64)]) ∧
    featureScoreDType (transform_output_schema scoreDt junctionDt)
      "variantBasedFeatures" "rawScore" = some scoreDt ∧
    featureScoreDType (transform_output_schema scoreDt junctionDt)
      "variantBasedFeatures" "quantileScore" = some scoreDt ∧
    featureScoreDType (transform_output_schema scoreDt junctionDt)
      "geneBasedFeatures" "rawScore" = some scoreDt ∧
    featureScoreDType (transform_output_schema scoreDt junctionDt)
      "geneBasedFeatures" "quantileScore" = some scoreDt ∧
    featureScoreDType (transform_output_schema scoreDt junctionDt)
      "spliceJunctionFeatures" "rawScore" = some scoreDt ∧
    featureScoreDType (transform_output_schema scoreDt junctionDt)
      "spliceJunctionFeatures" "quantileScore" = some scoreDt :=
  ⟨rfl, rfl, rfl, rfl, rfl, rfl, rfl, rfl, rfl⟩
